import Mathlib

/-!
Verification development for the KSCrash signal monitor
(Sources/KSCrashRecording/Monitors/KSCrashMonitor_Signal.c) and the top-level
recorder (Source/KSCrash/Recording/KSCrashC.c).

The C modules are embedded shallowly: each module's static globals become a
Lean state structure whose fields keep the C names, each C function becomes a
Lean function from (inputs, state) to (result, state), and calls into the OS
(sigaction, sigaltstack) are resolved through an explicit environment that
says which calls succeed.  External collaborators that are not part of the
two source files (the monitor registry, the report store, the crash-state
module, the report writers) are either modelled from the specification (and
say so in their doc comments) or recorded as opaque effects in an event
trace, so that theorems can talk about exactly which external calls a code
path performs.
-/

/-- Identity of an OS signal-handler function.  `ours` stands for the address
of this module's `handleSignal`; `other n` stands for any other non-null
handler address. -/
inductive Handler where
  | ours : Handler
  | other : Nat → Handler
deriving Repr, DecidableEq

/-- The fields of `struct sigaction` that the code reads or writes:
`sa_sigaction` (with `none` standing for a null pointer, as produced by
`memset 0`) and `sa_flags`. -/
structure SigAction where
  sa_sigaction : Option Handler := none
  sa_flags : Nat := 0
deriving Repr, DecidableEq

/-- A zeroed `struct sigaction`, as produced by `= {0}` or `memset(..., 0, ...)`. -/
def SigAction.zero : SigAction := {}

/-- SA_SIGINFO flag bit (value as on Darwin). -/
def SA_SIGINFO : Nat := 64

/-- SA_ONSTACK flag bit (value as on Darwin). -/
def SA_ONSTACK : Nat := 1

/-- SIGABRT signal number (value as on Darwin). -/
def SIGABRT : Nat := 6

/-- SIGSTKSZ, the size `installSignalHandler` allocates for the alternate
signal stack. -/
def SIGSTKSZ : Nat := 131072

/-- The sigaction that `installSignalHandler` installs: `sa_sigaction =
&handleSignal`, `sa_flags = SA_SIGINFO | SA_ONSTACK` (the `SA_64REGSET`
refinement on LP64 Apple hosts is ignored here). -/
def kscrashSigaction : SigAction :=
  { sa_sigaction := some Handler.ours, sa_flags := SA_SIGINFO ||| SA_ONSTACK }

/-- Modelled from the spec: the fixed fatal-signal set returned by
`kssignal_fatalSignals` (KSSignalInfo.c is not under src/).  The theorems are
stated for an arbitrary signal list; this concrete list (Darwin signal
numbers for SIGABRT, SIGBUS, SIGFPE, SIGILL, SIGPIPE, SIGSEGV, SIGSYS,
SIGTRAP) is used for concrete evaluations. -/
def fatalSignals : List Nat := [6, 10, 8, 4, 13, 11, 12, 5]

/-- Modelled from the spec: KSSC_MAX_STACK_DEPTH, the fixed maximum depth the
stack cursor is bounded at (KSStackCursor_MachineContext.h is not under
src/). -/
def KSSC_MAX_STACK_DEPTH : Nat := 150

/-- The machine-state snapshot built by `ksmc_getContextForSignal` from the
OS-supplied user context, kept abstract apart from its provenance. -/
structure MachineContext where
  fromUserContext : Nat
deriving Repr, DecidableEq

/-- The stack cursor as initialized by `kssc_initWithMachineContext(&cursor,
maxDepth, machineContext)`: a bounded backward walk over the snapshot. -/
structure StackCursor where
  maxStackDepth : Nat
  machineContext : MachineContext
deriving Repr, DecidableEq

/-- Modelled from the spec: the KSCrashMonitorType bit constants
(KSCrashMonitorType.h is not under src/).  Nine independently combinable
bits, one per detector kind. -/
def KSCrashMonitorTypeNone : Nat := 0

/-- Monitor-type bit for the signal detector. -/
def KSCrashMonitorTypeSignal : Nat := 1

/-- Monitor-type bit for the hardware (mach) exception detector. -/
def KSCrashMonitorTypeMachException : Nat := 2

/-- Monitor-type bit for the language (NSException) detector. -/
def KSCrashMonitorTypeNSException : Nat := 4

/-- Monitor-type bit for the C++ exception detector. -/
def KSCrashMonitorTypeCPPException : Nat := 8

/-- Monitor-type bit for the main-thread deadlock detector. -/
def KSCrashMonitorTypeMainThreadDeadlock : Nat := 16

/-- Monitor-type bit for the zombie-object detector. -/
def KSCrashMonitorTypeZombie : Nat := 32

/-- Monitor-type bit for user-reported events. -/
def KSCrashMonitorTypeUserReported : Nat := 64

/-- Monitor-type bit for the application-state detector. -/
def KSCrashMonitorTypeAppState : Nat := 128

/-- Monitor-type bit for the system-info detector. -/
def KSCrashMonitorTypeSystem : Nat := 256

/-- The nine single-kind monitor-type values. -/
def monitorTypeKinds : List Nat :=
  [KSCrashMonitorTypeSignal, KSCrashMonitorTypeMachException,
   KSCrashMonitorTypeNSException, KSCrashMonitorTypeCPPException,
   KSCrashMonitorTypeMainThreadDeadlock, KSCrashMonitorTypeZombie,
   KSCrashMonitorTypeUserReported, KSCrashMonitorTypeAppState,
   KSCrashMonitorTypeSystem]

/-- Modelled from the spec: KSCrashMonitorTypeProductionSafeMinimal, the
pre-configured default monitor set that `g_monitoring` starts at. -/
def KSCrashMonitorTypeProductionSafeMinimal : Nat :=
  KSCrashMonitorTypeSignal ||| KSCrashMonitorTypeMachException |||
  KSCrashMonitorTypeNSException ||| KSCrashMonitorTypeCPPException |||
  KSCrashMonitorTypeSystem ||| KSCrashMonitorTypeAppState

/-- The fields of `siginfo_t` that `handleSignal` reads. -/
structure SigInfo where
  si_addr : Nat := 0
  si_signo : Nat := 0
  si_code : Nat := 0
deriving Repr, DecidableEq

/-- The part of `KSCrash_MonitorContext.signal` the code touches. -/
structure SignalContext where
  userContext : Nat := 0
  signum : Nat := 0
  sigcode : Nat := 0
deriving Repr, DecidableEq

/-- The fields of `KSCrash_MonitorContext` read or written by the two source
files. -/
structure MonitorContext where
  crashType : Nat := 0
  eventID : Nat := 0
  offendingMachineContext : Option MachineContext := none
  registersAreValid : Bool := false
  faultAddress : Nat := 0
  signal : SignalContext := {}
  stackCursor : Option StackCursor := none
  crashedDuringCrashHandling : Bool := false
  currentSnapshotUserReported : Bool := false
  consoleLogPath : Option String := none
deriving Repr, DecidableEq

/-- A zeroed monitor context, as produced by `memset(crashContext, 0,
sizeof(*crashContext))`. -/
def MonitorContext.zero : MonitorContext := {}

/-- Outcomes of the OS calls the signal monitor makes, given from outside:
whether `sigaltstack` succeeds, whether the read `sigaction(sig, NULL, &out)`
at fatal-signal index `i` succeeds, whether the installing `sigaction(sig,
&action, &prev)` at index `i` succeeds, and the identifier `ksid_generate`
produces. -/
structure OSEnv where
  sigaltstackOk : Bool := true
  readOk : Nat → Bool := fun _ => true
  installOk : Nat → Bool := fun _ => true
  freshEventID : Nat := 0

/-- The static globals of KSCrashMonitor_Signal.c, together with the OS
per-fatal-signal sigaction table (`osHandlers`, indexed like the fatal-signal
list) and the trace of contexts handed to `kscm_handleException`
(KSCrashMonitor.c is not under src/, so the hand-off is recorded rather than
interpreted). -/
structure SignalMonitorState where
  g_isEnabled : Bool := false
  g_monitorContext : MonitorContext := {}
  g_stackCursor : Option StackCursor := none
  g_signalStackSize : Nat := 0
  g_previousSignalHandlers : Option (List SigAction) := none
  g_eventID : Nat := 0
  g_handleSignalHasBeenCalled : Bool := false
  osHandlers : List SigAction := []
  handledExceptions : List MonitorContext := []

/-- The `g_previousSignalHandlers` table as the install loop sees it: the
existing table, or the freshly `malloc`ed and zeroed one when the pointer is
still null. -/
def currentPrevTable (fs : List Nat) (st : SignalMonitorState) : List SigAction :=
  match st.g_previousSignalHandlers with
  | none => List.replicate fs.length SigAction.zero
  | some p => p

/-- The skip test of one install-loop iteration: only when the saved slot
`g_previousSignalHandlers[i].sa_sigaction` is non-null is the currently
installed handler read back (a failed read leaves the zero-initialized local
in place), and the signal is skipped exactly when that read handler is
`&handleSignal`. -/
def skipsSignal (env : OSEnv) (prev os : List SigAction) (i : Nat) : Bool :=
  if (prev.getD i SigAction.zero).sa_sigaction.isSome then
    let previousSignalHandler :=
      if env.readOk i then os.getD i SigAction.zero else SigAction.zero
    previousSignalHandler.sa_sigaction == some Handler.ours
  else
    false

/-- The rollback loop run when an installing `sigaction` fails at index `i`:
`for(i--; i >= 0; i--) sigaction(fatalSignals[i], &g_previousSignalHandlers[i], NULL)`,
restoring the saved entry over the OS table for every lower index. -/
def rollbackHandlers (prev : List SigAction) (os : List SigAction) : Nat → List SigAction
  | 0 => os
  | i + 1 => rollbackHandlers prev (os.set i (prev.getD i SigAction.zero)) i

/-- The per-signal loop of `installSignalHandler`, iterating `i` over the
fatal-signal indices: skip when `skipsSignal` holds; otherwise install the
monitor's action, saving the previous OS entry into the table; on an install
failure, roll back every earlier index and report failure.  The structural
`fuel` argument counts the remaining iterations (the caller passes the
signal count, and every recursive call keeps `fuel = n - i`), so the loop
still stops exactly when `i` reaches `n`. -/
def installSignalHandlerLoop (env : OSEnv) (n : Nat) :
    Nat → Nat → List SigAction → List SigAction →
      Bool × List SigAction × List SigAction
  | 0, _i, prev, os => (true, prev, os)
  | fuel + 1, i, prev, os =>
    if i < n then
      if skipsSignal env prev os i then
        installSignalHandlerLoop env n fuel (i + 1) prev os
      else if env.installOk i then
        installSignalHandlerLoop env n fuel (i + 1)
          (prev.set i (os.getD i SigAction.zero)) (os.set i kscrashSigaction)
      else
        (false, prev, rollbackHandlers prev os i)
    else
      (true, prev, os)

/-- `installSignalHandler`: allocate the alternate signal stack if absent and
register it (failure aborts), allocate and zero the previous-handler table if
absent, then run the per-signal install loop. -/
def installSignalHandler (fs : List Nat) (env : OSEnv) (st : SignalMonitorState) :
    Bool × SignalMonitorState :=
  let st :=
    if st.g_signalStackSize = 0 then { st with g_signalStackSize := SIGSTKSZ } else st
  if env.sigaltstackOk = false then
    (false, st)
  else
    let prev := currentPrevTable fs st
    let result := installSignalHandlerLoop env fs.length fs.length 0 prev st.osHandlers
    (result.1,
      { st with
        g_previousSignalHandlers := some result.2.1
        osHandlers := result.2.2 })

/-- The restore loop of `uninstallSignalHandler`: `for(i = 0; i < n; i++)
sigaction(fatalSignals[i], &g_previousSignalHandlers[i], NULL)`, written
structurally over the number of remaining iterations. -/
def restoreHandlers (prev : List SigAction) : Nat → Nat → List SigAction → List SigAction
  | 0, _i, os => os
  | fuel + 1, i, os => restoreHandlers prev fuel (i + 1) (os.set i (prev.getD i SigAction.zero))

/-- `uninstallSignalHandler`: restore every saved previous handler, clear the
alternate-stack registration, and zero the previous-handler table. -/
def uninstallSignalHandler (fs : List Nat) (st : SignalMonitorState) :
    SignalMonitorState :=
  let prev := currentPrevTable fs st
  { st with
    osHandlers := restoreHandlers prev fs.length 0 st.osHandlers
    g_signalStackSize := 0
    g_previousSignalHandlers := some (List.replicate fs.length SigAction.zero) }

/-- `setEnabled`: on a transition, first record the requested flag in
`g_isEnabled`; enabling then generates a fresh event id and installs the
handlers — an installation failure merely returns early, leaving the flag as
set — while disabling uninstalls them. -/
def setEnabled (fs : List Nat) (env : OSEnv) (isEnabled : Bool)
    (st : SignalMonitorState) : SignalMonitorState :=
  if isEnabled ≠ st.g_isEnabled then
    let st := { st with g_isEnabled := isEnabled }
    if isEnabled then
      let st := { st with g_eventID := env.freshEventID }
      let result := installSignalHandler fs env st
      -- if(!installSignalHandler()) { return; } — either way the state so far
      -- is the final state
      result.2
    else
      uninstallSignalHandler fs st
  else
    st

/-- `isEnabled`: reads `g_isEnabled`. -/
def isEnabled (st : SignalMonitorState) : Bool := st.g_isEnabled

/-- `emb_reInstallSignalHandlers`: calls `installSignalHandler` again. -/
def emb_reInstallSignalHandlers (fs : List Nat) (env : OSEnv)
    (st : SignalMonitorState) : Bool × SignalMonitorState :=
  installSignalHandler fs env st

/-- `addContextualInfoToEvent`: when the event's crash type has neither the
signal bit nor the mach-exception bit, store SIGABRT as the default signal
number. -/
def addContextualInfoToEvent (eventContext : MonitorContext) : MonitorContext :=
  if eventContext.crashType &&& (KSCrashMonitorTypeSignal ||| KSCrashMonitorTypeMachException) = 0 then
    { eventContext with signal := { eventContext.signal with signum := SIGABRT } }
  else
    eventContext

/-- How a `handleSignal` invocation ends: immediate `_Exit(sigNum)`, a tail
call into a saved previous handler with the original arguments, or
`raise(sigNum)`. -/
inductive HandleSignalOutcome where
  | exited : Nat → HandleSignalOutcome
  | forwarded : Handler → Nat → SigInfo → Nat → HandleSignalOutcome
  | reraised : Nat → HandleSignalOutcome
deriving Repr, DecidableEq

/-- The guard of the pass-through loop in `handleSignal`, exactly as written:
`for(int i = 0; i > fatalSignalsCount; i++)`.  With `i` starting at `0` the
loop runs only if `0 > fatalSignalsCount`. -/
def forwardLoopEnters (fatalSignalsCount : Nat) : Bool :=
  (0 : Int) > (fatalSignalsCount : Int)

/-- One pass over the saved-handler table as the body of the pass-through
loop would perform it: find the first index whose fatal signal equals
`sigNum` and whose saved `sa_sigaction` is non-null, and return that saved
handler. -/
def findSavedHandler (fs : List Nat) (prev : List SigAction) (sigNum : Nat) :
    Option Handler :=
  match fs, prev with
  | [], _ => none
  | _, [] => none
  | s :: fs', a :: prev' =>
      if s == sigNum && a.sa_sigaction.isSome then a.sa_sigaction
      else findSavedHandler fs' prev' sigNum

/-- `handleSignal`: exit at once if the one-shot latch is already set;
otherwise set the latch, and — when enabled — suspend the environment, build
the machine context and the bounded stack cursor, zero and repopulate the
shared monitor context, and hand it to `kscm_handleException` (recorded in
`handledExceptions`).  Then attempt the pass-through loop (whose inverted
guard admits no iteration) and fall through to re-raising the signal. -/
def handleSignal (fs : List Nat) (st : SignalMonitorState)
    (sigNum : Nat) (signalInfo : SigInfo) (userContext : Nat) :
    HandleSignalOutcome × SignalMonitorState :=
  if st.g_handleSignalHasBeenCalled then
    (HandleSignalOutcome.exited sigNum, st)
  else
    let st := { st with g_handleSignalHasBeenCalled := true }
    let st :=
      if st.g_isEnabled then
        let machineContext : MachineContext := { fromUserContext := userContext }
        let cursor : StackCursor :=
          { maxStackDepth := KSSC_MAX_STACK_DEPTH, machineContext := machineContext }
        let crashContext : MonitorContext :=
          { MonitorContext.zero with
            crashType := KSCrashMonitorTypeSignal
            eventID := st.g_eventID
            offendingMachineContext := some machineContext
            registersAreValid := true
            faultAddress := signalInfo.si_addr
            signal :=
              { userContext := userContext
                signum := signalInfo.si_signo
                sigcode := signalInfo.si_code }
            stackCursor := some cursor }
        { st with
          g_stackCursor := some cursor
          g_monitorContext := crashContext
          handledExceptions := st.handledExceptions ++ [crashContext] }
      else st
    if forwardLoopEnters fs.length then
      match findSavedHandler fs (currentPrevTable fs st) sigNum with
      | some h => (HandleSignalOutcome.forwarded h sigNum signalInfo userContext, st)
      | none => (HandleSignalOutcome.reraised sigNum, st)
    else
      (HandleSignalOutcome.reraised sigNum, st)

/-- The `KSApplicationState` enumeration of KSCrashC.c. -/
inductive KSApplicationState where
  | stateNone : KSApplicationState
  | didBecomeActive : KSApplicationState
  | willResignActiveActive : KSApplicationState
  | didEnterBackground : KSApplicationState
  | willEnterForeground : KSApplicationState
  | willTerminate : KSApplicationState
deriving Repr, DecidableEq

/-- Calls KSCrashC.c makes into its external collaborators, recorded as an
event trace: file-system setup, report-store and crash-state initialization,
logging setup, cached-data setup, registry wiring, crash-state
notifications, and the two report writers. -/
inductive Effect where
  | makePath : String → Effect
  | kscrs_initialize : String → String → Effect
  | kscrashstate_initialize : String → Effect
  | printPreviousLog : String → Effect
  | kslog_setLogFilename : String → Effect
  | ksccd_init : Nat → Effect
  | kscm_setEventCallback : Effect
  | kscm_setActiveMonitors : Nat → Effect
  | kscrashstate_notifyAppCrash : Effect
  | kscrashstate_notifyAppActive : Bool → Effect
  | kscrashstate_notifyAppInForeground : Bool → Effect
  | kscrashstate_notifyAppTerminate : Effect
  | writeRecrashReport : String → Effect
  | writeStandardReport : String → Effect
  | reportWrittenCallback : Nat → Effect
deriving Repr, DecidableEq

/-- Modelled from the spec: the monitor registry state (KSCrashMonitor.c is
not under src/).  Per spec section 4.1, `setActiveMonitors` enables exactly
the supported monitors whose bit is set and `getActiveMonitors` never
reports a bit for a detector unsupported on the platform. -/
structure Registry where
  supported : Nat := KSCrashMonitorTypeProductionSafeMinimal ||| KSCrashMonitorTypeZombie |||
    KSCrashMonitorTypeMainThreadDeadlock ||| KSCrashMonitorTypeUserReported
  activeMask : Nat := 0
deriving Repr, DecidableEq

/-- Modelled from the spec: `kscm_setActiveMonitors` activates the requested,
platform-supported monitor set. -/
def kscm_setActiveMonitors (mask : Nat) (r : Registry) : Registry :=
  { r with activeMask := mask &&& r.supported }

/-- Modelled from the spec: `kscm_getActiveMonitors` reports the active set. -/
def kscm_getActiveMonitors (r : Registry) : Nat := r.activeMask

/-- Modelled from the spec: the report store's id allocation state
(KSCrashReportStore.c is not under src/); `allocateNext` yields a
monotonically increasing id and its file path. -/
structure ReportStore where
  nextId : Nat := 1
deriving Repr, DecidableEq

/-- Modelled from the spec: the file path corresponding to a report id. -/
def reportPathForID (id : Nat) : String := "Reports/report-" ++ toString id

/-- Modelled from the spec: `kscrs_getNextCrashReport` allocates the next
report id and fills in the corresponding path. -/
def kscrs_getNextCrashReport (s : ReportStore) : Nat × String × ReportStore :=
  (s.nextId, reportPathForID s.nextId, { s with nextId := s.nextId + 1 })

/-- The static globals of KSCrashC.c, plus the modelled registry and report
store and the trace of external calls performed. -/
structure CrashCState where
  g_installed : Bool := false
  g_shouldAddConsoleLogToReport : Bool := false
  g_shouldPrintPreviousLog : Bool := false
  g_consoleLogPath : String := ""
  g_monitoring : Nat := KSCrashMonitorTypeProductionSafeMinimal
  g_lastCrashReportFilePath : String := ""
  g_reportWrittenCallback : Bool := false
  g_lastApplicationState : KSApplicationState := KSApplicationState.stateNone
  registry : Registry := {}
  store : ReportStore := {}
  effects : List Effect := []
deriving Repr, DecidableEq

/-- `kscrash_notifyAppActive`: forward to the crash-state module when
installed, then overwrite the latest application state. -/
def kscrash_notifyAppActive (isActive : Bool) (s : CrashCState) : CrashCState :=
  let s :=
    if s.g_installed then
      { s with effects := s.effects ++ [Effect.kscrashstate_notifyAppActive isActive] }
    else s
  { s with
    g_lastApplicationState :=
      if isActive then KSApplicationState.didBecomeActive
      else KSApplicationState.willResignActiveActive }

/-- `kscrash_notifyAppInForeground`: forward to the crash-state module when
installed, then overwrite the latest application state. -/
def kscrash_notifyAppInForeground (isInForeground : Bool) (s : CrashCState) : CrashCState :=
  let s :=
    if s.g_installed then
      { s with effects := s.effects ++ [Effect.kscrashstate_notifyAppInForeground isInForeground] }
    else s
  { s with
    g_lastApplicationState :=
      if isInForeground then KSApplicationState.willEnterForeground
      else KSApplicationState.didEnterBackground }

/-- `kscrash_notifyAppTerminate`: forward to the crash-state module when
installed, then overwrite the latest application state. -/
def kscrash_notifyAppTerminate (s : CrashCState) : CrashCState :=
  let s :=
    if s.g_installed then
      { s with effects := s.effects ++ [Effect.kscrashstate_notifyAppTerminate] }
    else s
  { s with g_lastApplicationState := KSApplicationState.willTerminate }

/-- `notifyOfBeforeInstallationState`: dispatch on the recorded latest
application state, re-issuing the matching notification; `None` dispatches
nothing. -/
def notifyOfBeforeInstallationState (s : CrashCState) : CrashCState :=
  match s.g_lastApplicationState with
  | KSApplicationState.didBecomeActive => kscrash_notifyAppActive true s
  | KSApplicationState.willResignActiveActive => kscrash_notifyAppActive false s
  | KSApplicationState.didEnterBackground => kscrash_notifyAppInForeground false s
  | KSApplicationState.willEnterForeground => kscrash_notifyAppInForeground true s
  | KSApplicationState.willTerminate => kscrash_notifyAppTerminate s
  | KSApplicationState.stateNone => s

/-- `onCrash`: note the crash in the application state unless the snapshot is
user-reported, point the context at the console log when configured, and
either write a recrash report to the last report path (re-entrant case, no
new id) or allocate the next report id, remember its path, write a standard
report there, and fire the report-written callback. -/
def onCrash (monitorContext : MonitorContext) (s : CrashCState) :
    MonitorContext × CrashCState :=
  let s :=
    if monitorContext.currentSnapshotUserReported = false then
      { s with effects := s.effects ++ [Effect.kscrashstate_notifyAppCrash] }
    else s
  let monitorContext :=
    { monitorContext with
      consoleLogPath :=
        if s.g_shouldAddConsoleLogToReport then some s.g_consoleLogPath else none }
  if monitorContext.crashedDuringCrashHandling then
    (monitorContext,
      { s with effects := s.effects ++ [Effect.writeRecrashReport s.g_lastCrashReportFilePath] })
  else
    let alloc := kscrs_getNextCrashReport s.store
    let reportID := alloc.1
    let crashReportFilePath := alloc.2.1
    let s := { s with store := alloc.2.2, g_lastCrashReportFilePath := crashReportFilePath }
    let s := { s with effects := s.effects ++ [Effect.writeStandardReport crashReportFilePath] }
    (monitorContext,
      if s.g_reportWrittenCallback then
        { s with effects := s.effects ++ [Effect.reportWrittenCallback reportID] }
      else s)

/-- `kscrash_setMonitoring`: when installed, push the mask into the registry
and report the recomputed active set; before installation, report `None` and
touch nothing. -/
def kscrash_setMonitoring (monitors : Nat) (s : CrashCState) : Nat × CrashCState :=
  if s.g_installed then
    let s :=
      { s with
        registry := kscm_setActiveMonitors monitors s.registry
        effects := s.effects ++ [Effect.kscm_setActiveMonitors monitors] }
    (kscm_getActiveMonitors s.registry, s)
  else
    -- Return none because we are not installed yet and therefore not monitoring.
    (KSCrashMonitorTypeNone, s)

/-- `kscrash_is_installed`: reads `g_installed`. -/
def kscrash_is_installed (s : CrashCState) : Bool := s.g_installed

/-- `kscrash_install`: a no-op returning the current active set when already
installed; otherwise mark installed, create the Reports and Data directories,
initialize the report store and crash state, set up console logging and the
cached data refresher, register `onCrash` as the event callback, activate the
configured monitor set, and replay the pre-installation application state. -/
def kscrash_install (appName : String) (installPath : String) (s : CrashCState) :
    Nat × CrashCState :=
  if s.g_installed then
    (kscm_getActiveMonitors s.registry, s)
  else
    let s := { s with g_installed := true }
    let reportsPath := installPath ++ "/Reports"
    let s := { s with effects := s.effects ++
      [Effect.makePath reportsPath, Effect.kscrs_initialize appName reportsPath] }
    let dataPath := installPath ++ "/Data"
    let statePath := installPath ++ "/Data/CrashState.json"
    let s := { s with effects := s.effects ++
      [Effect.makePath dataPath, Effect.kscrashstate_initialize statePath] }
    let consolePath := installPath ++ "/Data/ConsoleLog.txt"
    let s := { s with g_consoleLogPath := consolePath }
    let s :=
      if s.g_shouldPrintPreviousLog then
        { s with effects := s.effects ++ [Effect.printPreviousLog consolePath] }
      else s
    let s := { s with effects := s.effects ++
      [Effect.kslog_setLogFilename consolePath, Effect.ksccd_init 60,
       Effect.kscm_setEventCallback] }
    let result := kscrash_setMonitoring s.g_monitoring s
    let s := notifyOfBeforeInstallationState result.2
    (result.1, s)

/-! Helper lemmas about `List.set` and `List.getD`, and the install-loop
characterizations shared by several theorems below. -/

theorem listGetD_set_ne {α : Type} (l : List α) (i j : Nat) (a d : α) (h : i ≠ j) :
    (l.set i a).getD j d = l.getD j d := by
  induction l generalizing i j with
  | nil => simp
  | cons x xs ih =>
    cases i with
    | zero =>
      cases j with
      | zero => exact absurd rfl h
      | succ j' => simp [List.getD]
    | succ i' =>
      cases j with
      | zero => simp [List.getD]
      | succ j' =>
        simp only [List.set, List.getD_cons_succ]
        exact ih i' j' (fun hh => h (by rw [hh]))

theorem listGetD_set_self {α : Type} (l : List α) (i : Nat) (a d : α) (h : i < l.length) :
    (l.set i a).getD i d = a := by
  induction l generalizing i with
  | nil => simp at h
  | cons x xs ih =>
    cases i with
    | zero => simp [List.getD]
    | succ i' =>
      simp only [List.set, List.getD_cons_succ]
      exact ih i' (by simpa using h)

theorem rollbackHandlers_length (prev : List SigAction) (i : Nat) :
    ∀ os : List SigAction, (rollbackHandlers prev os i).length = os.length := by
  induction i with
  | zero => intro os; rfl
  | succ i ih =>
    intro os
    rw [rollbackHandlers, ih]
    simp

theorem rollbackHandlers_getD (prev : List SigAction) (i : Nat) :
    ∀ os : List SigAction, i ≤ os.length → ∀ j : Nat,
      (rollbackHandlers prev os i).getD j SigAction.zero =
        if j < i then prev.getD j SigAction.zero else os.getD j SigAction.zero := by
  induction i with
  | zero =>
    intro os _ j
    simp [rollbackHandlers]
  | succ i ih =>
    intro os hle j
    have hlen : i < os.length := Nat.lt_of_lt_of_le (Nat.lt_succ_self i) hle
    rw [rollbackHandlers,
      ih (os.set i (prev.getD i SigAction.zero)) (by simp; omega) j]
    by_cases hj : j < i
    · rw [if_pos hj, if_pos (Nat.lt_succ_of_lt hj)]
    · by_cases hji : j = i
      · subst hji
        rw [if_neg hj, if_pos (Nat.lt_succ_self j), listGetD_set_self _ _ _ _ hlen]
      · have hns : ¬ j < i + 1 := by omega
        rw [if_neg hj, if_neg hns, listGetD_set_ne _ _ _ _ _ (fun hh => hji hh.symm)]

theorem skipsSignal_congr (env : OSEnv) (prev os prev' os' : List SigAction) (i : Nat)
    (h1 : prev.getD i SigAction.zero = prev'.getD i SigAction.zero)
    (h2 : os.getD i SigAction.zero = os'.getD i SigAction.zero) :
    skipsSignal env prev os i = skipsSignal env prev' os' i := by
  simp only [skipsSignal, h1, h2]

theorem installSignalHandlerLoop_false_restores (env : OSEnv) (n : Nat)
    (prev0 os0 : List SigAction) :
    ∀ (m i : Nat) (prev os : List SigAction),
      n - i = m →
      prev.length = n → os.length = n →
      (∀ j, i ≤ j → prev.getD j SigAction.zero = prev0.getD j SigAction.zero ∧
        os.getD j SigAction.zero = os0.getD j SigAction.zero) →
      (∀ j, j < i → skipsSignal env prev0 os0 j = false →
        prev.getD j SigAction.zero = os0.getD j SigAction.zero) →
      ∀ pr osr : List SigAction,
        installSignalHandlerLoop env n m i prev os = (false, pr, osr) →
        ∀ j, skipsSignal env prev0 os0 j = false →
          osr.getD j SigAction.zero = os0.getD j SigAction.zero := by
  intro m
  induction m with
  | zero =>
    intro i prev os hm hpl hol hhi hlo pr osr hres j hskipj
    simp only [installSignalHandlerLoop] at hres
    injection hres with h1 h2
    exact absurd h1 (by decide)
  | succ m ih =>
    intro i prev os hm hpl hol hhi hlo pr osr hres j hskipj
    have hin : i < n := by omega
    simp only [installSignalHandlerLoop] at hres
    rw [if_pos hin] at hres
    have hski : skipsSignal env prev os i = skipsSignal env prev0 os0 i :=
      skipsSignal_congr env prev os prev0 os0 i (hhi i (le_refl i)).1 (hhi i (le_refl i)).2
    by_cases hskip : skipsSignal env prev os i = true
    · rw [if_pos hskip] at hres
      refine ih (i + 1) prev os (by omega) hpl hol
        (fun j' hj' => hhi j' (by omega)) (fun j' hj' hsk => ?_) pr osr hres j hskipj
      by_cases hji : j' = i
      · subst hji
        rw [← hski, hskip] at hsk
        exact absurd hsk (by decide)
      · exact hlo j' (by omega) hsk
    · rw [if_neg hskip] at hres
      by_cases hio : env.installOk i = true
      · rw [if_pos hio] at hres
        refine ih (i + 1)
          (prev.set i (os.getD i SigAction.zero)) (os.set i kscrashSigaction) (by omega)
          (by simpa using hpl) (by simpa using hol)
          (fun j' hj' => ⟨?_, ?_⟩) (fun j' hj' hsk => ?_) pr osr hres j hskipj
        · rw [listGetD_set_ne _ _ _ _ _ (by omega)]
          exact (hhi j' (by omega)).1
        · rw [listGetD_set_ne _ _ _ _ _ (by omega)]
          exact (hhi j' (by omega)).2
        · by_cases hji : j' = i
          · subst hji
            rw [listGetD_set_self _ _ _ _ (by omega)]
            exact (hhi j' (le_refl j')).2
          · rw [listGetD_set_ne _ _ _ _ _ (by omega)]
            exact hlo j' (by omega) hsk
      · rw [if_neg hio] at hres
        injection hres with h1 h2
        injection h2 with h3 h4
        subst h4
        rw [rollbackHandlers_getD prev i os (by omega) j]
        by_cases hj : j < i
        · rw [if_pos hj]
          exact hlo j hj hskipj
        · rw [if_neg hj]
          exact (hhi j (by omega)).2

theorem installSignalHandlerLoop_fails_of_bad_index (env : OSEnv) (n : Nat)
    (prev0 os0 : List SigAction) :
    ∀ (m i : Nat) (prev os : List SigAction),
      n - i = m →
      (∀ j, i ≤ j → prev.getD j SigAction.zero = prev0.getD j SigAction.zero ∧
        os.getD j SigAction.zero = os0.getD j SigAction.zero) →
      (∃ k, i ≤ k ∧ k < n ∧ skipsSignal env prev0 os0 k = false ∧
        env.installOk k = false) →
      (installSignalHandlerLoop env n m i prev os).1 = false := by
  intro m
  induction m with
  | zero =>
    intro i prev os hm hhi hbad
    obtain ⟨k, hik, hkn, _, _⟩ := hbad
    omega
  | succ m ih =>
    intro i prev os hm hhi hbad
    have hin : i < n := by omega
    simp only [installSignalHandlerLoop]
    rw [if_pos hin]
    have hski : skipsSignal env prev os i = skipsSignal env prev0 os0 i :=
      skipsSignal_congr env prev os prev0 os0 i (hhi i (le_refl i)).1 (hhi i (le_refl i)).2
    obtain ⟨k, hik, hkn, hks, hkio⟩ := hbad
    by_cases hskip : skipsSignal env prev os i = true
    · rw [if_pos hskip]
      have hki : k ≠ i := by
        intro hh
        subst hh
        rw [← hski, hskip] at hks
        exact absurd hks (by decide)
      exact ih (i + 1) prev os (by omega) (fun j hj => hhi j (by omega))
        ⟨k, by omega, hkn, hks, hkio⟩
    · rw [if_neg hskip]
      by_cases hio : env.installOk i = true
      · rw [if_pos hio]
        have hki : k ≠ i := by
          intro hh
          subst hh
          rw [hio] at hkio
          exact absurd hkio (by decide)
        refine ih (i + 1)
          (prev.set i (os.getD i SigAction.zero)) (os.set i kscrashSigaction) (by omega)
          (fun j hj => ⟨?_, ?_⟩) ⟨k, by omega, hkn, hks, hkio⟩
        · rw [listGetD_set_ne _ _ _ _ _ (by omega)]
          exact (hhi j (by omega)).1
        · rw [listGetD_set_ne _ _ _ _ _ (by omega)]
          exact (hhi j (by omega)).2
      · rw [if_neg hio]

theorem installSignalHandlerLoop_true_spec (env : OSEnv) (n : Nat)
    (prev0 os0 : List SigAction) :
    ∀ (m i : Nat) (prev os : List SigAction),
      n - i = m →
      prev.length = n → os.length = n →
      (∀ j, i ≤ j → prev.getD j SigAction.zero = prev0.getD j SigAction.zero ∧
        os.getD j SigAction.zero = os0.getD j SigAction.zero) →
      ∀ pr osr : List SigAction,
        installSignalHandlerLoop env n m i prev os = (true, pr, osr) →
        (∀ j, i ≤ j → j < n →
          (skipsSignal env prev0 os0 j = true →
            pr.getD j SigAction.zero = prev0.getD j SigAction.zero ∧
            osr.getD j SigAction.zero = os0.getD j SigAction.zero) ∧
          (skipsSignal env prev0 os0 j = false →
            pr.getD j SigAction.zero = os0.getD j SigAction.zero ∧
            osr.getD j SigAction.zero = kscrashSigaction)) ∧
        (∀ j, j < i → pr.getD j SigAction.zero = prev.getD j SigAction.zero ∧
          osr.getD j SigAction.zero = os.getD j SigAction.zero) := by
  intro m
  induction m with
  | zero =>
    intro i prev os hm hpl hol hhi pr osr hres
    have hin : ¬ i < n := by omega
    simp only [installSignalHandlerLoop] at hres
    injection hres with h1 h2
    injection h2 with h3 h4
    subst h3
    subst h4
    exact ⟨fun j hij hjn => absurd hjn (by omega), fun j _ => ⟨rfl, rfl⟩⟩
  | succ m ih =>
    intro i prev os hm hpl hol hhi pr osr hres
    have hin : i < n := by omega
    simp only [installSignalHandlerLoop] at hres
    rw [if_pos hin] at hres
    have hski : skipsSignal env prev os i = skipsSignal env prev0 os0 i :=
      skipsSignal_congr env prev os prev0 os0 i (hhi i (le_refl i)).1 (hhi i (le_refl i)).2
    by_cases hskip : skipsSignal env prev os i = true
    · rw [if_pos hskip] at hres
      obtain ⟨ih1, ih2⟩ := ih (i + 1) prev os (by omega) hpl hol
        (fun j hj => hhi j (by omega)) pr osr hres
      refine ⟨fun j hij hjn => ⟨fun hsk => ?_, fun hsk => ?_⟩, fun j hj => ih2 j (by omega)⟩
      · by_cases hji : j = i
        · subst hji
          obtain ⟨hpj, hoj⟩ := ih2 j (by omega)
          exact ⟨hpj.trans (hhi j (le_refl j)).1, hoj.trans (hhi j (le_refl j)).2⟩
        · exact (ih1 j (by omega) hjn).1 hsk
      · by_cases hji : j = i
        · subst hji
          rw [← hski, hskip] at hsk
          exact absurd hsk (by decide)
        · exact (ih1 j (by omega) hjn).2 hsk
    · rw [if_neg hskip] at hres
      by_cases hio : env.installOk i = true
      · rw [if_pos hio] at hres
        obtain ⟨ih1, ih2⟩ := ih (i + 1)
          (prev.set i (os.getD i SigAction.zero)) (os.set i kscrashSigaction) (by omega)
          (by simpa using hpl) (by simpa using hol)
          (fun j hj => ⟨by
              rw [listGetD_set_ne _ _ _ _ _ (by omega)]
              exact (hhi j (by omega)).1, by
              rw [listGetD_set_ne _ _ _ _ _ (by omega)]
              exact (hhi j (by omega)).2⟩) pr osr hres
        refine ⟨fun j hij hjn => ⟨fun hsk => ?_, fun hsk => ?_⟩, fun j hj => ?_⟩
        · by_cases hji : j = i
          · subst hji
            rw [← hski] at hsk
            exact absurd hsk hskip
          · exact (ih1 j (by omega) hjn).1 hsk
        · by_cases hji : j = i
          · subst hji
            obtain ⟨hpj, hoj⟩ := ih2 j (by omega)
            rw [listGetD_set_self _ _ _ _ (by omega)] at hpj
            rw [listGetD_set_self _ _ _ _ (by omega)] at hoj
            exact ⟨hpj.trans (hhi j (le_refl j)).2, hoj⟩
          · exact (ih1 j (by omega) hjn).2 hsk
        · obtain ⟨hpj, hoj⟩ := ih2 j (by omega)
          rw [listGetD_set_ne _ _ _ _ _ (by omega)] at hpj
          rw [listGetD_set_ne _ _ _ _ _ (by omega)] at hoj
          exact ⟨hpj, hoj⟩
      · rw [if_neg hio] at hres
        injection hres with h1 h2
        exact absurd h1 (by decide)

theorem installSignalHandler_fst (fs : List Nat) (env : OSEnv) (st : SignalMonitorState)
    (halt : env.sigaltstackOk = true) :
    (installSignalHandler fs env st).1 =
      (installSignalHandlerLoop env fs.length fs.length 0 (currentPrevTable fs st) st.osHandlers).1 := by
  unfold installSignalHandler
  by_cases hss : st.g_signalStackSize = 0 <;> simp [hss, halt, currentPrevTable]

theorem installSignalHandler_osHandlers (fs : List Nat) (env : OSEnv) (st : SignalMonitorState)
    (halt : env.sigaltstackOk = true) :
    (installSignalHandler fs env st).2.osHandlers =
      (installSignalHandlerLoop env fs.length fs.length 0 (currentPrevTable fs st) st.osHandlers).2.2 := by
  unfold installSignalHandler
  by_cases hss : st.g_signalStackSize = 0 <;> simp [hss, halt, currentPrevTable]

theorem installSignalHandler_prevTable (fs : List Nat) (env : OSEnv) (st : SignalMonitorState)
    (halt : env.sigaltstackOk = true) :
    (installSignalHandler fs env st).2.g_previousSignalHandlers =
      some (installSignalHandlerLoop env fs.length fs.length 0 (currentPrevTable fs st) st.osHandlers).2.1 := by
  unfold installSignalHandler
  by_cases hss : st.g_signalStackSize = 0 <;> simp [hss, halt, currentPrevTable]

theorem installSignalHandler_g_isEnabled (fs : List Nat) (env : OSEnv) (st : SignalMonitorState) :
    (installSignalHandler fs env st).2.g_isEnabled = st.g_isEnabled := by
  unfold installSignalHandler
  by_cases hss : st.g_signalStackSize = 0 <;> by_cases halt : env.sigaltstackOk = false <;>
    simp [hss, halt]

theorem forwardLoopEnters_false (n : Nat) : forwardLoopEnters n = false := by
  unfold forwardLoopEnters
  simp only [decide_eq_false_iff_not]
  omega

theorem isEnabled_setEnabled (fs : List Nat) (env : OSEnv) (b : Bool)
    (st : SignalMonitorState) : isEnabled (setEnabled fs env b st) = b := by
  unfold setEnabled
  by_cases h : b ≠ st.g_isEnabled
  · rw [if_pos h]
    cases b
    · simp [isEnabled, uninstallSignalHandler]
    · simp [isEnabled, installSignalHandler_g_isEnabled]
  · rw [if_neg h]
    have hb : b = st.g_isEnabled := not_not.mp h
    simp [isEnabled, hb]

/-- Repeated `setEnabled` requests, applied left to right. -/
def runSetEnabled (fs : List Nat) (env : OSEnv) (requests : List Bool)
    (st : SignalMonitorState) : SignalMonitorState :=
  requests.foldl (fun s b => setEnabled fs env b s) st

/-- A fresh, disabled monitor state over a default (all-zero) OS handler
table for the eight fatal signals. -/
def freshSignalState : SignalMonitorState :=
  { osHandlers := List.replicate 8 SigAction.zero }

/-- Environment in which every installing sigaction call fails. -/
def envInstallFails : OSEnv := { installOk := fun _ => false, freshEventID := 1 }

/-- C2 counterexample: enabling from a fresh disabled state under an
environment where handler installation fails leaves `isEnabled()` reporting
`true`, not `false` — `setEnabled` records the requested flag before
attempting installation and does not clear it on failure. -/
theorem C2_counterexample_failed_enable_reports_enabled :
    isEnabled (setEnabled fatalSignals envInstallFails true freshSignalState) = true := by
  decide

/-- C2 (amended): after any sequence of `setEnabled` requests, `isEnabled()`
reflects the last requested transition — not the last successful one; in
particular a `setEnabled(true)` whose OS-level installation fails leaves
`isEnabled() == true` (fail open). -/
theorem C2_isEnabled_reflects_last_request (fs : List Nat) (env : OSEnv)
    (requests : List Bool) (st : SignalMonitorState) :
    isEnabled (runSetEnabled fs env requests st) = requests.getLastD (isEnabled st) := by
  induction requests generalizing st with
  | nil => simp [runSetEnabled, List.getLastD]
  | cons b bs ih =>
    have hstep := ih (setEnabled fs env b st)
    rw [runSetEnabled] at hstep ⊢
    rw [List.foldl_cons, List.getLastD_cons, hstep, isEnabled_setEnabled]

/-- Environment in which the installing sigaction call succeeds only for the
first fatal signal and fails for the second. -/
def envFailAtOne : OSEnv := { installOk := fun i => i == 0, freshEventID := 2 }

/-- State after attempting to enable from a fresh state under
`envFailAtOne`: index 0 is installed, index 1 fails, the rollback runs. -/
def c5Enabled : SignalMonitorState :=
  setEnabled fatalSignals envFailAtOne true freshSignalState

/-- C5 counterexample: when installation fails partway through enabling, the
already-touched handler is rolled back (the OS table is back to its original
all-zero contents) but the detector does not end up disabled — `g_isEnabled`
still reads `true`. -/
theorem C5_counterexample_detector_not_disabled :
    c5Enabled.g_isEnabled = true ∧
    c5Enabled.osHandlers = List.replicate 8 SigAction.zero := by
  decide

/-- C5 (amended): if installing the OS handler for any single signal fails
during enable, every signal modified earlier in that call has its saved
previous handler restored and the installation reports failure, but the
detector does not end up disabled: the enabled flag recorded at the start of
`setEnabled` is kept. -/
theorem C5_failed_install_rolls_back_but_stays_enabled (fs : List Nat) (env : OSEnv)
    (st : SignalMonitorState)
    (hp : (currentPrevTable fs st).length = fs.length)
    (ho : st.osHandlers.length = fs.length)
    (halt : env.sigaltstackOk = true)
    (hbad : ∃ k, k < fs.length ∧
      skipsSignal env (currentPrevTable fs st) st.osHandlers k = false ∧
      env.installOk k = false) :
    (installSignalHandler fs env st).1 = false ∧
    (∀ j, skipsSignal env (currentPrevTable fs st) st.osHandlers j = false →
      (installSignalHandler fs env st).2.osHandlers.getD j SigAction.zero =
        st.osHandlers.getD j SigAction.zero) ∧
    (st.g_isEnabled = false → (setEnabled fs env true st).g_isEnabled = true) := by
  obtain ⟨k, hkn, hks, hkio⟩ := hbad
  have hfalse : (installSignalHandlerLoop env fs.length fs.length 0 (currentPrevTable fs st)
      st.osHandlers).1 = false :=
    installSignalHandlerLoop_fails_of_bad_index env fs.length (currentPrevTable fs st)
      st.osHandlers fs.length 0 (currentPrevTable fs st) st.osHandlers rfl
      (fun j _ => ⟨rfl, rfl⟩) ⟨k, Nat.zero_le k, hkn, hks, hkio⟩
  refine ⟨?_, ?_, ?_⟩
  · rw [installSignalHandler_fst fs env st halt, hfalse]
  · intro j hskipj
    rw [installSignalHandler_osHandlers fs env st halt]
    rcases hres : installSignalHandlerLoop env fs.length fs.length 0 (currentPrevTable fs st)
      st.osHandlers with ⟨ok, pr, osr⟩
    have hok : ok = false := by rw [hres] at hfalse; exact hfalse
    subst hok
    have hrestore := installSignalHandlerLoop_false_restores env fs.length
      (currentPrevTable fs st) st.osHandlers fs.length 0 (currentPrevTable fs st)
      st.osHandlers rfl hp ho (fun j' _ => ⟨rfl, rfl⟩)
      (fun j' hj' _ => absurd hj' (by omega)) pr osr hres j hskipj
    exact hrestore
  · intro hdis
    simp [setEnabled, hdis, installSignalHandler_g_isEnabled]

/-- Witness for C5 at a concrete input: fresh state, installation failing at
fatal-signal index 1. -/
theorem C5_failed_install_rolls_back_but_stays_enabled_witness :
    (installSignalHandler fatalSignals envFailAtOne freshSignalState).1 = false ∧
    (∀ j, skipsSignal envFailAtOne (currentPrevTable fatalSignals freshSignalState)
        freshSignalState.osHandlers j = false →
      (installSignalHandler fatalSignals envFailAtOne freshSignalState).2.osHandlers.getD j
        SigAction.zero = freshSignalState.osHandlers.getD j SigAction.zero) ∧
    (freshSignalState.g_isEnabled = false →
      (setEnabled fatalSignals envFailAtOne true freshSignalState).g_isEnabled = true) :=
  C5_failed_install_rolls_back_but_stays_enabled fatalSignals envFailAtOne freshSignalState
    (by decide) (by decide) rfl ⟨1, by decide, by decide, by decide⟩

/-- Environment in which every OS call succeeds. -/
def envAllOk : OSEnv := { freshEventID := 3 }

/-- State after a first enable from the fresh state: every fatal signal has
this monitor's handler installed and every saved slot is still zero (the
original handlers were all null). -/
def c7FirstEnable : SignalMonitorState :=
  setEnabled fatalSignals envAllOk true freshSignalState

/-- Result of running `emb_reInstallSignalHandlers` on top of the first
enable. -/
def c7Reinstall : Bool × SignalMonitorState :=
  emb_reInstallSignalHandlers fatalSignals envAllOk c7FirstEnable

/-- C7 counterexample: before the repeated installation the OS handler for
fatal-signal index 0 already points at this detector's own handler while the
saved slot is null; the repeated installation does not skip that signal and
records the detector's own handler as the saved previous handler. -/
theorem C7_counterexample_own_handler_recorded :
    c7FirstEnable.osHandlers.getD 0 SigAction.zero = kscrashSigaction ∧
    (currentPrevTable fatalSignals c7FirstEnable).getD 0 SigAction.zero = SigAction.zero ∧
    ((c7Reinstall.2.g_previousSignalHandlers.getD []).getD 0 SigAction.zero).sa_sigaction =
      some Handler.ours := by
  decide

/-- C7 (amended): during installation, a signal is skipped exactly when its
saved previous-handler slot is non-null and the read-back current handler is
this detector's own (`skipsSignal`); a skipped signal is left untouched.
For a signal that is not skipped — including one whose saved slot is null
while this detector's handler is already the current one — the handler is
installed with the alternate-stack, signal-info configuration and whatever
handler was current (possibly this detector's own) is recorded as the saved
previous handler. -/
theorem C7_install_records_current_handler_unless_skipped (fs : List Nat) (env : OSEnv)
    (st : SignalMonitorState)
    (hp : (currentPrevTable fs st).length = fs.length)
    (ho : st.osHandlers.length = fs.length)
    (halt : env.sigaltstackOk = true)
    (hok : (installSignalHandler fs env st).1 = true) :
    ∀ j, j < fs.length →
      (skipsSignal env (currentPrevTable fs st) st.osHandlers j = true →
        ((installSignalHandler fs env st).2.g_previousSignalHandlers.getD []).getD j
            SigAction.zero = (currentPrevTable fs st).getD j SigAction.zero ∧
        (installSignalHandler fs env st).2.osHandlers.getD j SigAction.zero =
          st.osHandlers.getD j SigAction.zero) ∧
      (skipsSignal env (currentPrevTable fs st) st.osHandlers j = false →
        ((installSignalHandler fs env st).2.g_previousSignalHandlers.getD []).getD j
            SigAction.zero = st.osHandlers.getD j SigAction.zero ∧
        (installSignalHandler fs env st).2.osHandlers.getD j SigAction.zero =
          kscrashSigaction) := by
  intro j hj
  rw [installSignalHandler_fst fs env st halt] at hok
  rcases hres : installSignalHandlerLoop env fs.length fs.length 0 (currentPrevTable fs st)
    st.osHandlers with ⟨ok, pr, osr⟩
  have hok1 : ok = true := by rw [hres] at hok; exact hok
  subst hok1
  obtain ⟨h1, _h2⟩ := installSignalHandlerLoop_true_spec env fs.length
    (currentPrevTable fs st) st.osHandlers fs.length 0 (currentPrevTable fs st)
    st.osHandlers rfl hp ho (fun j' _ => ⟨rfl, rfl⟩) pr osr hres
  rw [installSignalHandler_prevTable fs env st halt,
    installSignalHandler_osHandlers fs env st halt, hres]
  exact ⟨fun hsk => (h1 j (Nat.zero_le j) hj).1 hsk,
    fun hsk => (h1 j (Nat.zero_le j) hj).2 hsk⟩

/-- Witness for C7 at a concrete input: fresh state, all OS calls
succeeding, fatal-signal index 0 (not skipped, its null original handler is
recorded as the saved previous handler and the monitor's action is
installed). -/
theorem C7_install_records_current_handler_unless_skipped_witness :
    skipsSignal envAllOk (currentPrevTable fatalSignals freshSignalState)
        freshSignalState.osHandlers 0 = false ∧
    (((installSignalHandler fatalSignals envAllOk
        freshSignalState).2.g_previousSignalHandlers.getD []).getD 0 SigAction.zero =
      freshSignalState.osHandlers.getD 0 SigAction.zero ∧
    (installSignalHandler fatalSignals envAllOk freshSignalState).2.osHandlers.getD 0
        SigAction.zero = kscrashSigaction) :=
  ⟨by decide,
    (C7_install_records_current_handler_unless_skipped fatalSignals envAllOk freshSignalState
      (by decide) (by decide) rfl (by decide) 0 (by decide)).2 (by decide)⟩

/-- Chain table holding a saved previous handler for SIGABRT (fatal-signal
index 0) and empty slots for the rest. -/
def c1PrevTable : List SigAction :=
  { sa_sigaction := some (Handler.other 5) } ::
    List.replicate 7 SigAction.zero

/-- Enabled monitor state whose chain table records a previous handler for
SIGABRT, with this monitor's handler installed for every fatal signal. -/
def c1State : SignalMonitorState :=
  { g_isEnabled := true
    g_eventID := 42
    g_previousSignalHandlers := some c1PrevTable
    osHandlers := List.replicate 8 kscrashSigaction }

/-- C1: a saved previous handler for signal 6 (SIGABRT) is present in the
chain table and would be found by a single pass over it, yet `handleSignal`
ends by re-raising the signal instead of tail-invoking that handler: the
pass-through loop guard `i > fatalSignalsCount` is false at `i = 0`, so the
forward-search body never executes. -/
theorem C1_reraises_despite_saved_previous_handler :
    findSavedHandler fatalSignals c1PrevTable 6 = some (Handler.other 5) ∧
    forwardLoopEnters fatalSignals.length = false ∧
    (handleSignal fatalSignals c1State 6
      { si_addr := 4096, si_signo := 6, si_code := 0 } 77).1 =
      HandleSignalOutcome.reraised 6 := by
  decide

/-- Enabled monitor state used for the re-entrancy scenario: fresh capture
state over an installed handler table. -/
def c3State : SignalMonitorState :=
  { g_isEnabled := true
    g_eventID := 7
    g_previousSignalHandlers := some (List.replicate 8 SigAction.zero)
    osHandlers := List.replicate 8 kscrashSigaction }

/-- First trapped fault: SIGSEGV while enabled; the capture runs and one
context is handed to the registry. -/
def c3FirstFault : HandleSignalOutcome × SignalMonitorState :=
  handleSignal fatalSignals c3State 11 { si_addr := 4096, si_signo := 11, si_code := 1 } 9

/-- Second trapped fault, delivered while the first capture is in progress
(the one-shot latch is already set). -/
def c3SecondFault : HandleSignalOutcome × SignalMonitorState :=
  handleSignal fatalSignals c3FirstFault.2 6 { si_addr := 0, si_signo := 6, si_code := 0 } 9

/-- C3 counterexample: the second trapped fault does not produce a recrash
report — it terminates the process immediately via `_Exit` and hands nothing
further to the report-writing path (the registry hand-off count stays at the
single first-capture context). -/
theorem C3_counterexample_second_fault_exits :
    c3SecondFault.1 = HandleSignalOutcome.exited 6 ∧
    c3SecondFault.2.handledExceptions.length = c3FirstFault.2.handledExceptions.length ∧
    c3FirstFault.2.handledExceptions.length = 1 := by
  decide

/-- C3 (amended): a fault trapped after `handleSignal` has run once —
including a second fault while the first capture is in progress — causes
immediate process termination via `_Exit` with no capture and no report
write; the reduced recrash path does exist in `onCrash`, which, when the
context carries `crashedDuringCrashHandling`, writes a recrash report to the
last allocated report path and allocates no new report id, but a second
trapped signal exits before reaching it. -/
theorem C3_second_fault_exits_and_recrash_path (fs : List Nat)
    (st : SignalMonitorState) (sigNum : Nat) (signalInfo : SigInfo) (userContext : Nat)
    (hlatch : st.g_handleSignalHasBeenCalled = true)
    (ctx : MonitorContext) (s : CrashCState)
    (hre : ctx.crashedDuringCrashHandling = true) :
    handleSignal fs st sigNum signalInfo userContext =
      (HandleSignalOutcome.exited sigNum, st) ∧
    (onCrash ctx s).2.store.nextId = s.store.nextId ∧
    (onCrash ctx s).2.g_lastCrashReportFilePath = s.g_lastCrashReportFilePath ∧
    (onCrash ctx s).2.effects = s.effects ++
      (if ctx.currentSnapshotUserReported = false
        then [Effect.kscrashstate_notifyAppCrash] else []) ++
      [Effect.writeRecrashReport s.g_lastCrashReportFilePath] := by
  refine ⟨?_, ?_⟩
  · unfold handleSignal
    rw [hlatch]
    rfl
  · unfold onCrash
    by_cases hu : ctx.currentSnapshotUserReported = false <;>
      simp [hu, hre]

/-- Witness for C3 at concrete inputs: the concrete second fault from the
counterexample scenario, and a recrash-flagged context hitting `onCrash`. -/
theorem C3_second_fault_exits_and_recrash_path_witness :
    (handleSignal fatalSignals c3FirstFault.2 6 { si_addr := 0, si_signo := 6, si_code := 0 } 9 =
      (HandleSignalOutcome.exited 6, c3FirstFault.2)) ∧
    ((onCrash { crashedDuringCrashHandling := true }
        { g_lastCrashReportFilePath := "Reports/report-1" }).2.store.nextId =
      ({ g_lastCrashReportFilePath := "Reports/report-1" } : CrashCState).store.nextId ∧
     (onCrash { crashedDuringCrashHandling := true }
        { g_lastCrashReportFilePath := "Reports/report-1" }).2.g_lastCrashReportFilePath =
      ({ g_lastCrashReportFilePath := "Reports/report-1" } : CrashCState).g_lastCrashReportFilePath ∧
     (onCrash { crashedDuringCrashHandling := true }
        { g_lastCrashReportFilePath := "Reports/report-1" }).2.effects =
      ({ g_lastCrashReportFilePath := "Reports/report-1" } : CrashCState).effects ++
        (if ({ crashedDuringCrashHandling := true } : MonitorContext).currentSnapshotUserReported = false
          then [Effect.kscrashstate_notifyAppCrash] else []) ++
        [Effect.writeRecrashReport
          ({ g_lastCrashReportFilePath := "Reports/report-1" } : CrashCState).g_lastCrashReportFilePath]) :=
  C3_second_fault_exits_and_recrash_path fatalSignals c3FirstFault.2 6
    { si_addr := 0, si_signo := 6, si_code := 0 } 9 (by decide)
    { crashedDuringCrashHandling := true } { g_lastCrashReportFilePath := "Reports/report-1" } rfl

/-- C4: a fatal signal trapped while the detector is enabled (first trap, the
one-shot latch still clear) zeroes the shared monitor context and populates
exactly crash kind Signal, the session event id, the machine-context
snapshot, registers-valid, the fault address, the signal number and code and
user context, and a stack cursor bounded at the configured maximum depth. -/
theorem C4_capture_zeroes_and_populates_context (fs : List Nat)
    (st : SignalMonitorState) (sigNum : Nat) (signalInfo : SigInfo) (userContext : Nat)
    (hlatch : st.g_handleSignalHasBeenCalled = false)
    (hen : st.g_isEnabled = true) :
    (handleSignal fs st sigNum signalInfo userContext).2.g_monitorContext =
      { MonitorContext.zero with
        crashType := KSCrashMonitorTypeSignal
        eventID := st.g_eventID
        offendingMachineContext := some { fromUserContext := userContext }
        registersAreValid := true
        faultAddress := signalInfo.si_addr
        signal := { userContext := userContext, signum := signalInfo.si_signo,
                    sigcode := signalInfo.si_code }
        stackCursor := some { maxStackDepth := KSSC_MAX_STACK_DEPTH,
                              machineContext := { fromUserContext := userContext } } } ∧
    (handleSignal fs st sigNum signalInfo userContext).2.g_stackCursor =
      some { maxStackDepth := KSSC_MAX_STACK_DEPTH,
             machineContext := { fromUserContext := userContext } } := by
  unfold handleSignal
  rw [hlatch]
  simp [hen, forwardLoopEnters_false]

/-- Witness for C4 at a concrete input: SIGSEGV trapped on the enabled
`c3State`. -/
theorem C4_capture_zeroes_and_populates_context_witness :
    (handleSignal fatalSignals c3State 11
        { si_addr := 4096, si_signo := 11, si_code := 1 } 9).2.g_monitorContext =
      { MonitorContext.zero with
        crashType := KSCrashMonitorTypeSignal
        eventID := 7
        offendingMachineContext := some { fromUserContext := 9 }
        registersAreValid := true
        faultAddress := 4096
        signal := { userContext := 9, signum := 11, sigcode := 1 }
        stackCursor := some { maxStackDepth := KSSC_MAX_STACK_DEPTH,
                              machineContext := { fromUserContext := 9 } } } ∧
    (handleSignal fatalSignals c3State 11
        { si_addr := 4096, si_signo := 11, si_code := 1 } 9).2.g_stackCursor =
      some { maxStackDepth := KSSC_MAX_STACK_DEPTH,
             machineContext := { fromUserContext := 9 } } :=
  C4_capture_zeroes_and_populates_context fatalSignals c3State 11
    { si_addr := 4096, si_signo := 11, si_code := 1 } 9 rfl rfl

/-- C9: for an event whose crash kind is neither the signal kind nor the
mach-exception kind — i.e. captured by some other detector —
`addContextualInfoToEvent` stores the default signal classification SIGABRT
in the event's signal number; for the signal and mach-exception kinds it
leaves the event unchanged. -/
theorem C9_default_signal_classification (ctx : MonitorContext)
    (hkind : ctx.crashType ∈ monitorTypeKinds) :
    ((ctx.crashType = KSCrashMonitorTypeSignal ∨
      ctx.crashType = KSCrashMonitorTypeMachException) →
      addContextualInfoToEvent ctx = ctx) ∧
    (ctx.crashType ≠ KSCrashMonitorTypeSignal →
      ctx.crashType ≠ KSCrashMonitorTypeMachException →
      addContextualInfoToEvent ctx =
        { ctx with signal := { ctx.signal with signum := SIGABRT } }) := by
  simp only [monitorTypeKinds, List.mem_cons, List.not_mem_nil, or_false] at hkind
  constructor
  · rintro (h | h) <;> (unfold addContextualInfoToEvent; rw [h, if_neg (by decide)])
  · intro hne1 hne2
    have hz : ctx.crashType &&&
        (KSCrashMonitorTypeSignal ||| KSCrashMonitorTypeMachException) = 0 := by
      rcases hkind with h|h|h|h|h|h|h|h|h
      · exact absurd h hne1
      · exact absurd h hne2
      all_goals rw [h]; decide
    unfold addContextualInfoToEvent
    rw [if_pos hz]

/-- A deadlock-kind event carrying a stale signal number. -/
def c9Event : MonitorContext :=
  { crashType := KSCrashMonitorTypeMainThreadDeadlock, signal := { signum := 11 } }

/-- Witness for C9 at a concrete input: a deadlock-kind event gets SIGABRT
as its default signal classification. -/
theorem C9_default_signal_classification_witness :
    addContextualInfoToEvent c9Event =
      { c9Event with signal := { c9Event.signal with signum := SIGABRT } } :=
  (C9_default_signal_classification c9Event (by decide)).2 (by decide) (by decide)

/-- The crash-state notification that replaying a recorded application state
re-issues: one forwarded call for each non-None state, nothing for None. -/
def replayedStateEffects : KSApplicationState → List Effect
  | KSApplicationState.stateNone => []
  | KSApplicationState.didBecomeActive => [Effect.kscrashstate_notifyAppActive true]
  | KSApplicationState.willResignActiveActive => [Effect.kscrashstate_notifyAppActive false]
  | KSApplicationState.didEnterBackground => [Effect.kscrashstate_notifyAppInForeground false]
  | KSApplicationState.willEnterForeground => [Effect.kscrashstate_notifyAppInForeground true]
  | KSApplicationState.willTerminate => [Effect.kscrashstate_notifyAppTerminate]

theorem notifyOfBeforeInstallationState_eq (s : CrashCState) :
    notifyOfBeforeInstallationState s =
      { s with effects := s.effects ++
          (if s.g_installed then replayedStateEffects s.g_lastApplicationState else []) } := by
  obtain ⟨ins, add, prl, clp, mon, lcp, rwc, app, reg, sto, eff⟩ := s
  cases app <;> cases ins <;>
    simp [notifyOfBeforeInstallationState, kscrash_notifyAppActive,
      kscrash_notifyAppInForeground, kscrash_notifyAppTerminate,
      replayedStateEffects]

theorem kscrash_install_installed (a p : String) (s : CrashCState)
    (h : s.g_installed = true) :
    kscrash_install a p s = (kscm_getActiveMonitors s.registry, s) := by
  unfold kscrash_install
  rw [if_pos h]

theorem kscrash_install_not_installed_eq (a p : String) (s : CrashCState)
    (h : s.g_installed = false) :
    kscrash_install a p s =
      (kscm_getActiveMonitors (kscm_setActiveMonitors s.g_monitoring s.registry),
        { s with
          g_installed := true
          g_consoleLogPath := p ++ "/Data/ConsoleLog.txt"
          registry := kscm_setActiveMonitors s.g_monitoring s.registry
          effects := s.effects ++
            [Effect.makePath (p ++ "/Reports"), Effect.kscrs_initialize a (p ++ "/Reports"),
             Effect.makePath (p ++ "/Data"),
             Effect.kscrashstate_initialize (p ++ "/Data/CrashState.json")] ++
            (if s.g_shouldPrintPreviousLog
              then [Effect.printPreviousLog (p ++ "/Data/ConsoleLog.txt")] else []) ++
            [Effect.kslog_setLogFilename (p ++ "/Data/ConsoleLog.txt"), Effect.ksccd_init 60,
             Effect.kscm_setEventCallback, Effect.kscm_setActiveMonitors s.g_monitoring] ++
            replayedStateEffects s.g_lastApplicationState }) := by
  by_cases hpl : s.g_shouldPrintPreviousLog = true <;>
    simp [kscrash_install, kscrash_setMonitoring, h, hpl,
      notifyOfBeforeInstallationState_eq, List.append_assoc]

/-- C6: calling `kscrash_install` a second time while already installed is a
no-op — it returns the same active-monitor bitmask and the same state as the
first call — and the first call (from a quiet pre-install state) performs
the directory creation, store initialization, state initialization and
callback registration exactly once each. -/
theorem C6_second_install_noop (a p : String) (s : CrashCState)
    (h : s.g_installed = false) :
    kscrash_install a p (kscrash_install a p s).2 = kscrash_install a p s ∧
    (s.effects = [] → s.g_shouldPrintPreviousLog = false →
      s.g_lastApplicationState = KSApplicationState.stateNone →
      (kscrash_install a p s).2.effects =
        [Effect.makePath (p ++ "/Reports"), Effect.kscrs_initialize a (p ++ "/Reports"),
         Effect.makePath (p ++ "/Data"),
         Effect.kscrashstate_initialize (p ++ "/Data/CrashState.json"),
         Effect.kslog_setLogFilename (p ++ "/Data/ConsoleLog.txt"), Effect.ksccd_init 60,
         Effect.kscm_setEventCallback, Effect.kscm_setActiveMonitors s.g_monitoring]) := by
  constructor
  · rw [kscrash_install_not_installed_eq a p s h]
    rw [kscrash_install_installed a p _ rfl]
  · intro he hpl happ
    rw [kscrash_install_not_installed_eq a p s h]
    simp [he, hpl, happ, replayedStateEffects]

/-- Witness for C6 at a concrete input: the default pre-install state. -/
theorem C6_second_install_noop_witness :
    kscrash_install "MyApp" "/var/app"
        (kscrash_install "MyApp" "/var/app" ({} : CrashCState)).2 =
      kscrash_install "MyApp" "/var/app" ({} : CrashCState) ∧
    (kscrash_install "MyApp" "/var/app" ({} : CrashCState)).2.effects =
      [Effect.makePath "/var/app/Reports",
       Effect.kscrs_initialize "MyApp" "/var/app/Reports",
       Effect.makePath "/var/app/Data",
       Effect.kscrashstate_initialize "/var/app/Data/CrashState.json",
       Effect.kslog_setLogFilename "/var/app/Data/ConsoleLog.txt", Effect.ksccd_init 60,
       Effect.kscm_setEventCallback,
       Effect.kscm_setActiveMonitors KSCrashMonitorTypeProductionSafeMinimal] :=
  ⟨(C6_second_install_noop "MyApp" "/var/app" {} rfl).1,
    (C6_second_install_noop "MyApp" "/var/app" {} rfl).2 rfl rfl rfl⟩

/-- C8: each lifecycle notification overwrites the single latest application
state with the matching value; at the end of a first install the effect
trace is exactly the trace of an install from a None state followed by the
one notification replaying the recorded state — so the most recent lifecycle
notification is replayed exactly once, and a None state replays nothing. -/
theorem C8_latest_lifecycle_state_replay :
    (∀ (s : CrashCState) (b : Bool),
      (kscrash_notifyAppActive b s).g_lastApplicationState =
        (if b then KSApplicationState.didBecomeActive
          else KSApplicationState.willResignActiveActive)) ∧
    (∀ (s : CrashCState) (b : Bool),
      (kscrash_notifyAppInForeground b s).g_lastApplicationState =
        (if b then KSApplicationState.willEnterForeground
          else KSApplicationState.didEnterBackground)) ∧
    (∀ s : CrashCState,
      (kscrash_notifyAppTerminate s).g_lastApplicationState =
        KSApplicationState.willTerminate) ∧
    replayedStateEffects KSApplicationState.stateNone = [] ∧
    (∀ (a p : String) (s : CrashCState), s.g_installed = false →
      (kscrash_install a p s).2.effects =
        (kscrash_install a p
          { s with g_lastApplicationState := KSApplicationState.stateNone }).2.effects ++
          replayedStateEffects s.g_lastApplicationState) := by
  refine ⟨?_, ?_, ?_, rfl, ?_⟩
  · intro s b
    cases b <;> by_cases hins : s.g_installed = true <;>
      simp [kscrash_notifyAppActive, hins]
  · intro s b
    cases b <;> by_cases hins : s.g_installed = true <;>
      simp [kscrash_notifyAppInForeground, hins]
  · intro s
    by_cases hins : s.g_installed = true <;>
      simp [kscrash_notifyAppTerminate, hins]
  · intro a p s h
    rw [kscrash_install_not_installed_eq a p s h,
      kscrash_install_not_installed_eq a p { s with
        g_lastApplicationState := KSApplicationState.stateNone } h]
    simp [replayedStateEffects, List.append_assoc]

/-- Witness for C8 at a concrete input: install from a state whose recorded
latest lifecycle notification is did-become-active. -/
theorem C8_latest_lifecycle_state_replay_witness :
    (kscrash_install "MyApp" "/var/app"
        ({ g_lastApplicationState := KSApplicationState.didBecomeActive } : CrashCState)).2.effects =
      (kscrash_install "MyApp" "/var/app"
        { ({ g_lastApplicationState := KSApplicationState.didBecomeActive } : CrashCState) with
            g_lastApplicationState := KSApplicationState.stateNone }).2.effects ++
        replayedStateEffects
          ({ g_lastApplicationState := KSApplicationState.didBecomeActive } :
            CrashCState).g_lastApplicationState :=
  C8_latest_lifecycle_state_replay.2.2.2.2 "MyApp" "/var/app"
    { g_lastApplicationState := KSApplicationState.didBecomeActive } rfl

/-- C10: calling `kscrash_setMonitoring` before installation returns the None
bitmask and leaves the entire state — detectors included — unchanged, and
does not record the requested mask: a subsequent install pushes the
pre-configured default `g_monitoring` set into the registry, independent of
the mask requested before installation. -/
theorem C10_setMonitoring_before_install_inert (mask : Nat) (a p : String)
    (s : CrashCState) (h : s.g_installed = false) :
    kscrash_setMonitoring mask s = (KSCrashMonitorTypeNone, s) ∧
    (kscrash_install a p (kscrash_setMonitoring mask s).2).2.registry =
      kscm_setActiveMonitors s.g_monitoring s.registry := by
  have h1 : kscrash_setMonitoring mask s = (KSCrashMonitorTypeNone, s) := by
    unfold kscrash_setMonitoring
    rw [if_neg (by simp [h])]
  refine ⟨h1, ?_⟩
  rw [h1, kscrash_install_not_installed_eq a p s h]

/-- Witness for C10 at a concrete input: requesting only the zombie monitor
before install returns None and the later install still activates the
default production-safe set. -/
theorem C10_setMonitoring_before_install_inert_witness :
    kscrash_setMonitoring KSCrashMonitorTypeZombie ({} : CrashCState) =
      (KSCrashMonitorTypeNone, ({} : CrashCState)) ∧
    (kscrash_install "MyApp" "/var/app"
        (kscrash_setMonitoring KSCrashMonitorTypeZombie ({} : CrashCState)).2).2.registry =
      kscm_setActiveMonitors ({} : CrashCState).g_monitoring ({} : CrashCState).registry :=
  C10_setMonitoring_before_install_inert KSCrashMonitorTypeZombie "MyApp" "/var/app" {} rfl
